import Mathlib

/-!
Verification development for the crtools clan-dashboard generator
(`crtools/crtools.py`).

The Python source is shallowly embedded below:

* Python dicts that the code reads with fixed keys become Lean structures
  carrying exactly the fields the code accesses; a dict key that may be
  absent (the `status` key of a war participant, which only exists after
  `member_warlog` has written it) becomes an `Option` field.
* Python lists become Lean `List`s, iteration becomes structural
  recursion, and in-place mutation of a dict inside a list is made
  explicit: a function that mutates its argument in Python here returns
  the updated value alongside its result.
* Fallible operations (HTTP requests, JSON decoding, filesystem calls,
  template rendering) are modelled with `Except` / `Option`; external
  collaborators (the network, the filesystem, `json.dumps`, jinja2) are
  parameters supplied by the caller, so every definition stays executable.
* Counts coming from the game API (battle counts, donations, trophies)
  are non-negative; they are embedded as `Nat`.
-/

namespace Crtools

/-! ## Data model

A war participant record as returned by the API inside
`war['participants']`: the code reads `tag`, `collectionDayBattlesPlayed`
and `battlesPlayed`, and may write a `status` key (absent until written,
hence `Option`). -/

structure Participant where
  tag : String
  collectionDayBattlesPlayed : Nat
  battlesPlayed : Nat
  status : Option String
  deriving Repr, DecidableEq

/-- One war-log entry: `createdDate` (read by `warlog_dates`) and the
participant list (read and mutated by `member_warlog`). -/
structure War where
  createdDate : String
  participants : List Participant
  deriving Repr, DecidableEq

/-- A member record from `clan['memberList']`, with the fields the code
reads: `tag`, `role`, `donations`. -/
structure Member where
  tag : String
  role : String
  donations : Nat
  deriving Repr, DecidableEq

/-- The value bound to `participation` in `member_warlog`: either the
fresh dict `{'status': 'na'}` (constructor `placeholder` — exactly the
one key, nothing more) or the participant dict from the war entry
(aliased in Python; a value copy here since no further mutation follows). -/
inductive Participation where
  | placeholder
  | fromParticipant (p : Participant)
  deriving Repr, DecidableEq

/-- The `war['status']` lookup performed by `member_danger` on a
participation entry. The placeholder dict has status `'na'`; a
participant dict has whatever was written into its `status` key (`none`
models a dict still lacking the key, on which Python would raise
`KeyError`; `member_warlog` never emits such a record, see
`member_warlog_status_isSome`). -/
def Participation.statusOf : Participation → Option String
  | .placeholder => some "na"
  | .fromParticipant p => p.status

/-! ## Participation Analyzer (`member_warlog`, `member_danger`) -/

/-- The status cascade assigned inline in `member_warlog` when a
participant with the requested tag is found:

    if member['collectionDayBattlesPlayed'] == 0: 'na'
    elif member['battlesPlayed'] == 0:            'bad'
    elif member['collectionDayBattlesPlayed'] < 3: 'ok'
    else:                                          'good'
-/
def participant_status (p : Participant) : String :=
  if p.collectionDayBattlesPlayed = 0 then "na"
  else if p.battlesPlayed = 0 then "bad"
  else if p.collectionDayBattlesPlayed < 3 then "ok"
  else "good"

/-- The inner `for member in war['participants']` loop of
`member_warlog`: every participant whose tag matches gets its `status`
key written (in-place in Python, returned as the updated list here), and
`participation` is rebound to that (mutated) participant dict; a later
match overwrites an earlier one. Returns the final `participation`
binding together with the updated participant list. -/
def scan_participants (member_tag : String) :
    List Participant → Participation → Participation × List Participant
  | [], acc => (acc, [])
  | m :: rest, acc =>
    if m.tag = member_tag then
      let m2 := { m with status := some (participant_status m) }
      let r := scan_participants member_tag rest (Participation.fromParticipant m2)
      (r.1, m2 :: r.2)
    else
      let r := scan_participants member_tag rest acc
      (r.1, m :: r.2)

/-- The body of the outer loop of `member_warlog` for one war:
`participation` starts as the placeholder `{'status': 'na'}` and the
participant scan runs over `war['participants']`. -/
def member_warlog_war (member_tag : String) (war : War) : Participation × War :=
  let r := scan_participants member_tag war.participants Participation.placeholder
  (r.1, { war with participants := r.2 })

/-- `member_warlog(member_tag, warlog)`: one participation record per war,
in war order. The second component is the war log as left behind by the
in-place `member['status']` writes. -/
def member_warlog (member_tag : String) : List War → List Participation × List War
  | [] => ([], [])
  | war :: rest =>
    let w := member_warlog_war member_tag war
    let r := member_warlog member_tag rest
    (w.1 :: r.1, w.2 :: r.2)

/-- `member_danger(member, member_warlog)`: tallies `good` / `ok` / `bad`
statuses over the participation list, then

    if bad > good: return True
    if good == 0 and member['donations'] == 0: return True
    return False

The Python loop also guards `if war != None`; entries produced by
`member_warlog` are dicts, never `None`, so the guard is vacuous and the
embedding iterates over the entries directly. A status absent or outside
the four known strings falls through every branch and is counted as
nothing, like `'na'`. -/
def member_danger (member : Member) (wl : List Participation) : Bool :=
  let c := wl.foldl
    (fun (c : Nat × Nat × Nat) war =>
      if war.statusOf = some "good" then (c.1 + 1, c.2.1, c.2.2)
      else if war.statusOf = some "ok" then (c.1, c.2.1 + 1, c.2.2)
      else if war.statusOf = some "bad" then (c.1, c.2.1, c.2.2 + 1)
      else c)
    (0, 0, 0)
  if c.2.2 > c.1 then true
  else if c.1 = 0 && member.donations = 0 then true
  else false

/-! ## Remote Data Client (`get_clan`, `get_warlog`)

The HTTP transport is an oracle `net : String → String → Except Unit
HttpResponse` giving, for an API key and clan id, the outcome of the
single `requests.get` the function issues (URL formation with
`urllib.parse.quote_plus` and the two request headers are inside the
oracle). `Except.error` models `requests.get` raising a network error. -/

/-- A JSON value, for the decoded response bodies. -/
inductive JsonVal where
  | null
  | bool (b : Bool)
  | num (n : Int)
  | str (s : String)
  | arr (xs : List JsonVal)
  | obj (fields : List (String × JsonVal))
  deriving Repr

/-- The `warlog['items']` subscript: `none` models both a missing key
(Python `KeyError`) and a non-object value (Python `TypeError`). -/
def JsonVal.lookup (j : JsonVal) (key : String) : Option JsonVal :=
  match j with
  | .obj fields => fields.lookup key
  | _ => none

/-- An HTTP response as seen through `requests`: the status code, and the
result of `json.loads` on the body text (`none` when the body is not
valid JSON, in which case `json.loads` raises). -/
structure HttpResponse where
  status : Nat
  bodyJson : Option JsonVal
  deriving Repr

/-- How a fetch fails: `requests.get` raised, `json.loads` raised, or the
`['items']` subscript raised. -/
inductive FetchError where
  | networkError
  | jsonDecodeError
  | keyError
  deriving Repr, DecidableEq

/-- `get_clan(api_key, clan_id)`: one GET, then `json.loads(r.text)`.
The status code of the response is never inspected. -/
def get_clan (net : String → String → Except Unit HttpResponse)
    (api_key clan_id : String) : Except FetchError JsonVal :=
  match net api_key clan_id with
  | .error _ => .error .networkError
  | .ok r =>
    match r.bodyJson with
    | none => .error .jsonDecodeError
    | some clan => .ok clan

/-- `get_warlog(api_key, clan_id)`: one GET to the `/warlog?limit=20`
endpoint, `json.loads(r.text)`, then `warlog['items']`. The status code
is never inspected. -/
def get_warlog (net : String → String → Except Unit HttpResponse)
    (api_key clan_id : String) : Except FetchError JsonVal :=
  match net api_key clan_id with
  | .error _ => .error .networkError
  | .ok r =>
    match r.bodyJson with
    | none => .error .jsonDecodeError
    | some warlog =>
      match warlog.lookup "items" with
      | none => .error .keyError
      | some items => .ok items

/-! ## Report Assembler (the `member_dash` loop of `build_dashboard`) -/

/-- A member row of `member_dash`: in Python this is the member dict
itself, enriched in place with `warlog`, `danger` and `leadership` keys
and a possibly rewritten `role`. -/
structure MemberRow where
  tag : String
  role : String
  donations : Nat
  warlog : List Participation
  danger : Bool
  leadership : Bool
  deriving Repr, DecidableEq

/-- The body of the `for member in clan['memberList']` loop for one
member, given the participation list just computed for it:

    member_row['danger'] = member_danger(member, member_row['warlog'])
    if member['role'] == 'leader' or member['role'] == 'coLeader':
        member_row['leadership'] = True
    else:
        member_row['leadership'] = False
    if member['role'] == 'coLeader':
        member['role'] = 'co-leader'

`leadership` is read off `member['role']` before the rewrite line runs. -/
def assemble_member_row (member : Member) (wl : List Participation) : MemberRow :=
  let danger := member_danger member wl
  let leadership := member.role == "leader" || member.role == "coLeader"
  let role := if member.role = "coLeader" then "co-leader" else member.role
  { tag := member.tag, role := role, donations := member.donations,
    warlog := wl, danger := danger, leadership := leadership }

/-- The full `member_dash` loop: each member's `member_warlog` call sees
the war log as mutated by the previous members' calls, so the war-log
state is threaded through. -/
def build_member_dash : List War → List Member → List MemberRow × List War
  | wl, [] => ([], wl)
  | wl, m :: rest =>
    let w := member_warlog m.tag wl
    let row := assemble_member_row m w.1
    let r := build_member_dash w.2 rest
    (row :: r.1, r.2)

/-! ## Description resolution (`build_dashboard`, the
`if description_path:` block) -/

/-- A single-quote character, used in the missing-file error string. -/
def sq : String := String.singleton (Char.ofNat 39)

/-- The literal error string
`"ERROR: File '{}' does not exist.".format(description_path)`. -/
def missing_description_error (path : String) : String :=
  "ERROR: File " ++ sq ++ path ++ sq ++ " does not exist."

/-- The description-resolution block of `build_dashboard`.
`expanduser` models `os.path.expanduser`; `read_file p` is `some` of the
file's full text when `os.path.isfile(p)` holds and `none` otherwise.
Python's `if description_path:` is a truthiness test, false for both
`None` and the empty string. -/
def resolve_description (expanduser : String → String)
    (read_file : String → Option String)
    (api_description : String) (description_path : Option String) : String :=
  match description_path with
  | none => api_description
  | some path =>
    if path = "" then api_description
    else
      let p := expanduser path
      match read_file p with
      | some text => text
      | none => missing_description_error p

/-! ## `write_object_to_file` -/

/-- A Python value passed to `write_object_to_file`: a `str`, or any
non-string object (carried as a JSON-serialisable value). -/
inductive PyObj where
  | str (s : String)
  | nonStr (j : JsonVal)
  deriving Repr

/-- The Python error raised by `write_object_to_file` on a non-string. -/
inductive PyError where
  | nameError
  deriving Repr, DecidableEq

/-- `write_object_to_file(file_path, obj)` evaluates
`isinstance(obj, str) or isinstance(obj, unicode)`. Under Python 3 the
name `unicode` is unbound, so for a string the `or` short-circuits and
`obj` is written directly, while for a non-string the second operand
raises `NameError` before `json.dumps` can run — the JSON branch is
unreachable. Returns the text written. (The `codecs.open` call itself
truncates the target file before the check runs; the file path is not
part of this embedding.) -/
def write_object_to_file (obj : PyObj) : Except PyError String :=
  match obj with
  | .str s => .ok s
  | .nonStr _ => .error .nameError

/-- Whether a `write_object_to_file` argument is a Python string. -/
def PyObj.isStr : PyObj → Bool
  | .str _ => true
  | .nonStr _ => false

/-! ## `build_dashboard`

The run is a linear sequence of fallible steps wrapped in
`try ... finally shutil.rmtree(tempdir)`. The filesystem effects the
claims are about — the final output path and the temporary working
directory — are tracked explicitly; the contents of a directory tree are
abstracted to a `Nat` identifier. Every other external outcome (which
filesystem call raises, what each fetch returns, what `json.dumps` and
the jinja2 renderer produce) is supplied by a `BuildEnv` oracle, one
field per fallible source line. The two fetches are abstracted at the
typed level: `fetch_clan` is the outcome of `get_clan` plus the field
extraction `clan['description']`/`clan['name']`/... the rest of the run
performs, and likewise `fetch_warlog`. -/

/-- The clan snapshot fields `build_dashboard` reads. -/
structure Clan where
  name : String
  tag : String
  description : String
  requiredTrophies : Nat
  memberList : List Member
  deriving Repr

/-- Oracle for the external outcomes of one `build_dashboard` run. A
`*_ok := false` field makes the corresponding filesystem call raise. -/
structure BuildEnv where
  mkdtemp_ok : Bool
  makedirs_ok : Bool
  copy_static_ok : Bool
  copy_logo_ok : Bool
  copy_favicon_ok : Bool
  fetch_clan : Except FetchError Clan
  dumps_clan : Clan → String
  write_clan_ok : Bool
  fetch_warlog : Except FetchError (List War)
  dumps_warlog : List War → String
  write_warlog_ok : Bool
  expanduser : String → String
  read_file : String → Option String
  render : List MemberRow → String → Except Unit String
  write_index_ok : Bool
  copystat_ok : Bool
  rmtree_output_ok : Bool
  copytree_output_ok : Bool
  staged_content : Nat
  copytree_leftover : Option Nat

/-- The exception (if any) a run ends with, one constructor per raising
source line. -/
inductive BuildError where
  | mkdtempError
  | makedirsError
  | copyStaticError
  | copyLogoError
  | copyFaviconError
  | fetchClanError (e : FetchError)
  | writeClanLogError
  | fetchWarlogError (e : FetchError)
  | writeWarlogLogError
  | renderError
  | writeIndexError
  | writeNameError (e : PyError)
  | copystatError
  | rmtreeOutputError
  | copytreeOutputError
  | nameErrorInFinally
  deriving Repr, DecidableEq

/-- The observable filesystem state of a run: the contents at the final
output path (`none` = the path does not exist), whether the temporary
working directory exists, and the arguments passed to
`write_object_to_file` so far, in call order. -/
structure BuildState where
  output : Option Nat
  temp : Bool
  writes : List PyObj
  deriving Repr

/-- The staging part of the `try` body of `build_dashboard`, line by
line: everything up to and including the `index.html` write — all of it
before the publish step touches the output path. -/
def build_dashboard_staging (env : BuildEnv) (description_path : Option String)
    (s : BuildState) : BuildState × Except BuildError Unit :=
  -- tempdir = tempfile.mkdtemp("traasorg")
  if !env.mkdtemp_ok then (s, .error .mkdtempError) else
  let s := { s with temp := true }
  -- log_path = os.path.join(tempdir, 'log'); os.makedirs(log_path)
  if !env.makedirs_ok then (s, .error .makedirsError) else
  -- shutil.copytree(<package>/static, tempdir/static)
  if !env.copy_static_ok then (s, .error .copyStaticError) else
  -- logo: copyfile from expanduser(logo_path) if given, else the bundled
  -- default; either copy raises iff copy_logo_ok is false
  if !env.copy_logo_ok then (s, .error .copyLogoError) else
  -- favicon: same shape as the logo copy
  if !env.copy_favicon_ok then (s, .error .copyFaviconError) else
  -- clan = get_clan(api_key, clan_id)
  match env.fetch_clan with
  | .error e => (s, .error (.fetchClanError e))
  | .ok clan =>
  -- write_object_to_file(log/clan.json, json.dumps(clan, indent=4))
  let a1 := PyObj.str (env.dumps_clan clan)
  let s := { s with writes := s.writes ++ [a1] }
  if !env.write_clan_ok then (s, .error .writeClanLogError) else
  match write_object_to_file a1 with
  | .error e => (s, .error (.writeNameError e))
  | .ok _ =>
  -- clan_description = clan['description']; if description_path: ...
  let clan_description :=
    resolve_description env.expanduser env.read_file clan.description description_path
  -- warlog = get_warlog(api_key, clan_id)
  match env.fetch_warlog with
  | .error e => (s, .error (.fetchWarlogError e))
  | .ok warlog =>
  -- write_object_to_file(log/warlog.json, json.dumps(warlog, indent=4))
  let a2 := PyObj.str (env.dumps_warlog warlog)
  let s := { s with writes := s.writes ++ [a2] }
  if !env.write_warlog_ok then (s, .error .writeWarlogLogError) else
  match write_object_to_file a2 with
  | .error e => (s, .error (.writeNameError e))
  | .ok _ =>
  -- the member_dash loop
  let md := build_member_dash warlog clan.memberList
  -- stats table + render_dashboard (jinja2 templates, warlog_dates):
  -- any raise in this block is a renderError
  match env.render md.1 clan_description with
  | .error _ => (s, .error .renderError)
  | .ok dashboard_html =>
  -- write_object_to_file(tempdir/index.html, dashboard_html)
  let a3 := PyObj.str dashboard_html
  let s := { s with writes := s.writes ++ [a3] }
  if !env.write_index_ok then (s, .error .writeIndexError) else
  match write_object_to_file a3 with
  | .error e => (s, .error (.writeNameError e))
  | .ok _ => (s, .ok ())

/-- The publish step of `build_dashboard` — the only part of the run
that touches the final output path. -/
def build_dashboard_publish (env : BuildEnv) (output_path : String)
    (s : BuildState) : BuildState × Except BuildError Unit :=
  -- output_path = os.path.expanduser(output_path)
  let _op := env.expanduser output_path
  -- if os.path.exists(output_path): copystat; rmtree(output_path)
  match s.output with
  | some _ =>
    if !env.copystat_ok then (s, .error .copystatError) else
    if !env.rmtree_output_ok then (s, .error .rmtreeOutputError) else
    let s := { s with output := none }
    -- shutil.copytree(tempdir, output_path)
    if !env.copytree_output_ok then
      ({ s with output := env.copytree_leftover }, .error .copytreeOutputError)
    else ({ s with output := some env.staged_content }, .ok ())
  | none =>
    -- shutil.copytree(tempdir, output_path)
    if !env.copytree_output_ok then
      ({ s with output := env.copytree_leftover }, .error .copytreeOutputError)
    else ({ s with output := some env.staged_content }, .ok ())

/-- The whole `try` body: the staging sequence, then — only when no
staging step raised — the publish step. -/
def build_dashboard_try (env : BuildEnv) (description_path : Option String)
    (output_path : String) (s : BuildState) : BuildState × Except BuildError Unit :=
  match build_dashboard_staging env description_path s with
  | (s2, .error e) => (s2, .error e)
  | (s2, .ok _) => build_dashboard_publish env output_path s2

/-- `build_dashboard`: the `try` body above, then the `finally` clause
`shutil.rmtree(tempdir)`. When `mkdtemp` itself raised, the name
`tempdir` was never bound, so the `finally` clause raises `NameError`
(replacing the original exception); no temporary directory exists in
that case. `output0` is what the final output path holds when the run
starts; a run begins with no temporary directory and no writes. -/
def build_dashboard (env : BuildEnv) (description_path : Option String)
    (output_path : String) (output0 : Option Nat) :
    BuildState × Except BuildError Unit :=
  let r := build_dashboard_try env description_path output_path
    { output := output0, temp := false, writes := [] }
  if env.mkdtemp_ok then ({ r.1 with temp := false }, r.2)
  else (r.1, .error .nameErrorInFinally)

/-- Which run exceptions originate before the publish step (everything
except the three publish-phase filesystem calls). `nameErrorInFinally`
only arises when `mkdtemp` — the first staging step — raised. -/
def BuildError.isPrePublish : BuildError → Bool
  | .copystatError => false
  | .rmtreeOutputError => false
  | .copytreeOutputError => false
  | _ => true

/-! ## Helper lemmas -/

/-- What the participant scan does to one participant record: a matching
tag gets the classified status written, anything else is untouched. -/
def mutate_participant (t : String) (p : Participant) : Participant :=
  if p.tag = t then { p with status := some (participant_status p) } else p

lemma scan_participants_snd (t : String) :
    ∀ (ps : List Participant) (acc : Participation),
      (scan_participants t ps acc).2 = ps.map (mutate_participant t) := by
  intro ps
  induction ps with
  | nil => intro acc; rfl
  | cons p rest ih =>
    intro acc
    by_cases h : p.tag = t <;>
      simp [scan_participants, h, mutate_participant, ih]

lemma scan_participants_no_match (t : String) :
    ∀ (ps : List Participant) (acc : Participation),
      (∀ p ∈ ps, p.tag ≠ t) → (scan_participants t ps acc).1 = acc := by
  intro ps
  induction ps with
  | nil => intro acc _; rfl
  | cons p rest ih =>
    intro acc h
    have hp : p.tag ≠ t := h p (by simp)
    have hrest : ∀ q ∈ rest, q.tag ≠ t := fun q hq => h q (by simp [hq])
    simp [scan_participants, hp, ih _ hrest]

lemma scan_participants_match (t : String) :
    ∀ (ps : List Participant) (acc : Participation),
      (∃ p ∈ ps, p.tag = t) →
      ∃ m, m ∈ ps ∧ m.tag = t ∧
        (scan_participants t ps acc).1 =
          Participation.fromParticipant { m with status := some (participant_status m) } := by
  intro ps
  induction ps with
  | nil => intro acc h; simp at h
  | cons p rest ih =>
    intro acc h
    by_cases hrest : ∃ q ∈ rest, q.tag = t
    · obtain ⟨m, hm, hmt, heq⟩ := ih
        (if p.tag = t then
          Participation.fromParticipant { p with status := some (participant_status p) }
        else acc) hrest
      refine ⟨m, by simp [hm], hmt, ?_⟩
      by_cases hp : p.tag = t <;> simp_all [scan_participants]
    · push_neg at hrest
      have hp : p.tag = t := by
        obtain ⟨q, hq, hqt⟩ := h
        rcases List.mem_cons.mp hq with rfl | hqr
        · exact hqt
        · exact absurd hqt (hrest q hqr)
      refine ⟨p, by simp, hp, ?_⟩
      simp [scan_participants, hp, scan_participants_no_match t rest _ hrest]

lemma member_warlog_fst_map (t : String) :
    ∀ wl : List War,
      (member_warlog t wl).1 = wl.map (fun w => (member_warlog_war t w).1) := by
  intro wl
  induction wl with
  | nil => rfl
  | cons w rest ih => simp [member_warlog, ih]

lemma member_warlog_snd_map (t : String) :
    ∀ wl : List War,
      (member_warlog t wl).2 = wl.map (fun w => (member_warlog_war t w).2) := by
  intro wl
  induction wl with
  | nil => rfl
  | cons w rest ih => simp [member_warlog, ih]

lemma getElem_append_cons {α : Type} :
    ∀ (pre : List α) (x : α) (post : List α),
      (pre ++ x :: post)[pre.length]? = some x := by
  intro pre x post
  induction pre with
  | nil => simp
  | cons a l ih => simpa using ih

/-- The number of entries of a participation list whose status is `st`. -/
def count_status (st : String) (wl : List Participation) : Nat :=
  wl.countP (fun w => w.statusOf == some st)

lemma danger_foldl (wl : List Participation) :
    ∀ c : Nat × Nat × Nat,
      wl.foldl (fun (c : Nat × Nat × Nat) war =>
        if war.statusOf = some "good" then (c.1 + 1, c.2.1, c.2.2)
        else if war.statusOf = some "ok" then (c.1, c.2.1 + 1, c.2.2)
        else if war.statusOf = some "bad" then (c.1, c.2.1, c.2.2 + 1)
        else c) c
      = (c.1 + count_status "good" wl, c.2.1 + count_status "ok" wl,
         c.2.2 + count_status "bad" wl) := by
  induction wl with
  | nil => intro c; simp [count_status]
  | cons w rest ih =>
    intro c
    by_cases h1 : w.statusOf = some "good"
    · simp only [List.foldl_cons, h1, if_pos rfl, ih, count_status, List.countP_cons]
      simp [h1, Prod.ext_iff]
      omega
    · by_cases h2 : w.statusOf = some "ok"
      · simp only [List.foldl_cons, h2, if_neg h1, if_pos rfl, ih, count_status,
          List.countP_cons]
        simp [h1, h2, Prod.ext_iff]
        omega
      · by_cases h3 : w.statusOf = some "bad"
        · simp only [List.foldl_cons, h3, if_neg h1, if_neg h2, if_pos rfl, ih,
            count_status, List.countP_cons]
          simp [h1, h2, h3, Prod.ext_iff]
          omega
        · simp only [List.foldl_cons, if_neg h1, if_neg h2, if_neg h3, ih,
            count_status, List.countP_cons]
          simp [h1, h2, h3]

lemma member_danger_eq (member : Member) (wl : List Participation) :
    member_danger member wl =
      if count_status "good" wl < count_status "bad" wl then true
      else if count_status "good" wl = 0 && member.donations = 0 then true
      else false := by
  unfold member_danger
  rw [danger_foldl]
  simp [Nat.lt_iff_add_one_le]

/-- C3: `member_danger` counts the `good`, `ok` and `bad` statuses of the
participation list (an `na` — or any other — status is counted as
nothing) and flags danger exactly when the `bad` count exceeds the
`good` count, or when the `good` count is zero and the member's donation
count is zero; the `bad > good` case does not consult the donations. -/
theorem member_danger_spec (member : Member) (wl : List Participation) :
    member_danger member wl = true ↔
      (count_status "good" wl < count_status "bad" wl ∨
        (count_status "good" wl = 0 ∧ member.donations = 0)) := by
  rw [member_danger_eq]
  split_ifs with h1 h2 <;> simp_all

/-- C5: `member_warlog` emits exactly one participation entry per
war-log entry, in war-log order — entry `i` comes from war `i` — so the
output length equals the war log's length. -/
theorem member_warlog_length_invariant (t : String) (wl : List War) :
    (member_warlog t wl).1 = wl.map (fun w => (member_warlog_war t w).1) ∧
      (member_warlog t wl).1.length = wl.length := by
  refine ⟨member_warlog_fst_map t wl, ?_⟩
  rw [member_warlog_fst_map t wl, List.length_map]

/-- C6: a war whose participant list contains no participant with the
member's tag contributes exactly the placeholder record `{status: na}` —
the dict with the single `status` key — at that war's position. -/
theorem member_warlog_absent_placeholder (t : String) (pre post : List War)
    (war : War) (h : ∀ m ∈ war.participants, m.tag ≠ t) :
    (member_warlog t (pre ++ war :: post)).1[pre.length]? =
      some Participation.placeholder := by
  rw [member_warlog_fst_map, List.getElem?_map, getElem_append_cons, Option.map_some']
  rw [member_warlog_war, scan_participants_no_match t war.participants _ h]

/-- A war whose only participant has tag `#B`, for the C6 witness. -/
def war_without_A : War :=
  { createdDate := "20180709T182240.000Z",
    participants := [{ tag := "#B", collectionDayBattlesPlayed := 3,
                       battlesPlayed := 1, status := none }] }

theorem member_warlog_absent_placeholder_witness :
    (member_warlog "#A" ([] ++ war_without_A :: [])).1[(0 : Nat)]? =
      some Participation.placeholder :=
  member_warlog_absent_placeholder "#A" [] [] war_without_A (by decide)

/-- C4: when a participant with the member's tag is present in a war,
the emitted entry is that participant record with its status assigned by
the priority cascade: collection-day battles `= 0` gives `na` regardless
of `battlesPlayed`; otherwise zero battle-day battles gives `bad`;
otherwise fewer than 3 collection-day battles gives `ok`; otherwise
`good`. -/
theorem member_warlog_status_cascade (t : String) (pre post : List War)
    (war : War) (h : ∃ m ∈ war.participants, m.tag = t) :
    ∃ m, m ∈ war.participants ∧ m.tag = t ∧
      (member_warlog t (pre ++ war :: post)).1[pre.length]? =
        some (Participation.fromParticipant
          { m with status := some (participant_status m) }) ∧
      (m.collectionDayBattlesPlayed = 0 → participant_status m = "na") ∧
      (m.collectionDayBattlesPlayed ≠ 0 → m.battlesPlayed = 0 →
        participant_status m = "bad") ∧
      (m.collectionDayBattlesPlayed ≠ 0 → m.battlesPlayed ≠ 0 →
        m.collectionDayBattlesPlayed < 3 → participant_status m = "ok") ∧
      (m.collectionDayBattlesPlayed ≠ 0 → m.battlesPlayed ≠ 0 →
        ¬ m.collectionDayBattlesPlayed < 3 → participant_status m = "good") := by
  obtain ⟨m, hm, hmt, heq⟩ :=
    scan_participants_match t war.participants Participation.placeholder h
  refine ⟨m, hm, hmt, ?_, ?_, ?_, ?_, ?_⟩
  · rw [member_warlog_fst_map, List.getElem?_map, getElem_append_cons, Option.map_some']
    rw [member_warlog_war, heq]
  · intro h0; simp [participant_status, h0]
  · intro h0 hb; simp [participant_status, h0, hb]
  · intro h0 hb hc; simp [participant_status, h0, hb, hc]
  · intro h0 hb hc; simp [participant_status, h0, hb, hc]

/-- A participant with tag `#A`, zero collection-day battles and 5
battle-day battles, and a war containing only it, for the C4 witness. -/
def participant_A : Participant :=
  { tag := "#A", collectionDayBattlesPlayed := 0, battlesPlayed := 5, status := none }

def war_with_A : War :=
  { createdDate := "20180709T182240.000Z", participants := [participant_A] }

theorem member_warlog_status_cascade_witness :
    ∃ m, m ∈ war_with_A.participants ∧ m.tag = "#A" ∧
      (member_warlog "#A" ([] ++ war_with_A :: [])).1[(0 : Nat)]? =
        some (Participation.fromParticipant
          { m with status := some (participant_status m) }) ∧
      (m.collectionDayBattlesPlayed = 0 → participant_status m = "na") ∧
      (m.collectionDayBattlesPlayed ≠ 0 → m.battlesPlayed = 0 →
        participant_status m = "bad") ∧
      (m.collectionDayBattlesPlayed ≠ 0 → m.battlesPlayed ≠ 0 →
        m.collectionDayBattlesPlayed < 3 → participant_status m = "ok") ∧
      (m.collectionDayBattlesPlayed ≠ 0 → m.battlesPlayed ≠ 0 →
        ¬ m.collectionDayBattlesPlayed < 3 → participant_status m = "good") :=
  member_warlog_status_cascade "#A" [] [] war_with_A
    ⟨participant_A, by decide, rfl⟩

/-- C8 counterexample: classifying participation does NOT leave the war
log unmodified — a war containing a participant with the member's tag
comes back with that participant's `status` key written. -/
theorem member_warlog_mutates_counterexample :
    (member_warlog "#A"
        [{ createdDate := "20180709T182240.000Z",
           participants := [{ tag := "#A", collectionDayBattlesPlayed := 2,
                              battlesPlayed := 1, status := none }] }]).2 ≠
      [{ createdDate := "20180709T182240.000Z",
         participants := [{ tag := "#A", collectionDayBattlesPlayed := 2,
                            battlesPlayed := 1, status := none }] }] := by
  decide

/-- C8 amended: `member_warlog` mutates the war log in place, but only
the `status` key of tag-matching participants: the returned war log is
the input with every matching participant's status set to its
classification, and everything else — war order, `createdDate`,
participant order, non-matching participants, and every other field of a
matching participant — unchanged. -/
theorem member_warlog_mutation_spec (t : String) (wl : List War) :
    (member_warlog t wl).2 =
      wl.map (fun war =>
        { war with participants := war.participants.map (mutate_participant t) }) := by
  rw [member_warlog_snd_map]
  refine List.map_congr_left fun war _ => ?_
  rw [member_warlog_war, scan_participants_snd]

lemma scan_participants_fst_cases (t : String) :
    ∀ (ps : List Participant) (acc : Participation),
      (scan_participants t ps acc).1 = acc ∨
      ∃ m : Participant, (scan_participants t ps acc).1 =
        Participation.fromParticipant { m with status := some (participant_status m) } := by
  intro ps
  induction ps with
  | nil => intro acc; left; rfl
  | cons p rest ih =>
    intro acc
    by_cases hp : p.tag = t
    · have key : (scan_participants t (p :: rest) acc).1 =
          (scan_participants t rest (Participation.fromParticipant
            { p with status := some (participant_status p) })).1 := by
        simp only [scan_participants, if_pos hp]
      rcases ih (Participation.fromParticipant
          { p with status := some (participant_status p) }) with h | ⟨m, hm⟩
      · right; exact ⟨p, by rw [key, h]⟩
      · right; exact ⟨m, by rw [key, hm]⟩
    · have key : (scan_participants t (p :: rest) acc).1 =
          (scan_participants t rest acc).1 := by
        simp only [scan_participants, if_neg hp]
      rcases ih acc with h | ⟨m, hm⟩
      · left; rw [key, h]
      · right; exact ⟨m, by rw [key, hm]⟩

/-- Every participant record `member_warlog` emits has its `status` key
set, so the `war['status']` lookup in `member_danger` cannot raise on
`member_warlog` output. -/
lemma member_warlog_status_isSome (t : String) (wl : List War) (p : Participant)
    (hp : Participation.fromParticipant p ∈ (member_warlog t wl).1) :
    p.status.isSome := by
  rw [member_warlog_fst_map] at hp
  obtain ⟨w, -, hw⟩ := List.mem_map.mp hp
  rw [member_warlog_war] at hw
  rcases scan_participants_fst_cases t w.participants Participation.placeholder with
    h | ⟨m, hm⟩
  · rw [h] at hw; exact absurd hw (by simp)
  · rw [hm] at hw
    obtain rfl : ({ m with status := some (participant_status m) } : Participant) = p :=
      Participation.fromParticipant.inj hw
    rfl

/-- A co-leader member record, for the C7 witness. -/
def co_leader_member : Member :=
  { tag := "#A", role := "coLeader", donations := 10 }

/-- C7: a member row's `leadership` flag is true exactly when the
member's original role is `leader` or `coLeader`, computed from the
pre-rewrite role; the displayed role rewrites `coLeader` to `co-leader`
and the rewrite does not change the leadership flag (in particular a
`coLeader` row has `leadership = true` together with the rewritten
display role). -/
theorem assemble_member_row_leadership (member : Member) (wl : List Participation) :
    ((assemble_member_row member wl).leadership = true ↔
      (member.role = "leader" ∨ member.role = "coLeader")) ∧
    (assemble_member_row member wl).role =
      (if member.role = "coLeader" then "co-leader" else member.role) ∧
    (member.role = "coLeader" →
      (assemble_member_row member wl).leadership = true ∧
      (assemble_member_row member wl).role = "co-leader") := by
  refine ⟨by simp [assemble_member_row], rfl, fun h => ⟨by simp [assemble_member_row, h],
    by simp [assemble_member_row, h]⟩⟩

theorem assemble_member_row_leadership_witness :
    (assemble_member_row co_leader_member []).leadership = true ∧
    (assemble_member_row co_leader_member []).role = "co-leader" :=
  (assemble_member_row_leadership co_leader_member []).2.2 rfl

/-- A filesystem oracle for the C9 witness: exactly one file exists. -/
def one_file_fs : String → Option String :=
  fun p => if p = "/home/u/desc.txt" then some "the file text" else none

/-- C9: description resolution has three cases — a supplied path whose
`~`-expansion names an existing file replaces the API description with
the file's full text; a supplied path that does not resolve to a file
yields the literal error string naming the expanded path (a soft
failure, the run continues); no supplied path leaves the API description
unchanged. -/
theorem resolve_description_cases (expanduser : String → String)
    (read_file : String → Option String) (api_description : String) :
    (∀ path text, path ≠ "" → read_file (expanduser path) = some text →
      resolve_description expanduser read_file api_description (some path) = text) ∧
    (∀ path, path ≠ "" → read_file (expanduser path) = none →
      resolve_description expanduser read_file api_description (some path) =
        missing_description_error (expanduser path)) ∧
    resolve_description expanduser read_file api_description none = api_description := by
  refine ⟨fun path text hne hread => ?_, fun path hne hread => ?_, rfl⟩ <;>
    simp [resolve_description, hne, hread]

theorem resolve_description_cases_witness :
    resolve_description id one_file_fs "api text" (some "/home/u/desc.txt") =
      "the file text" ∧
    resolve_description id one_file_fs "api text" (some "/home/u/other.txt") =
      missing_description_error "/home/u/other.txt" ∧
    resolve_description id one_file_fs "api text" none = "api text" :=
  ⟨(resolve_description_cases id one_file_fs "api text").1 "/home/u/desc.txt"
      "the file text" (by decide) (by decide),
   (resolve_description_cases id one_file_fs "api text").2.1 "/home/u/other.txt"
      (by decide) (by decide),
   (resolve_description_cases id one_file_fs "api text").2.2⟩

/-- A network oracle answering every request with HTTP 503 and a body
that is valid JSON (an object carrying an `items` field), for C2. -/
def status503_net : String → String → Except Unit HttpResponse :=
  fun _ _ =>
    .ok { status := 503,
          bodyJson := some (JsonVal.obj [("items", JsonVal.arr [])]) }

/-- C2 counterexample: neither fetch inspects the HTTP status code. On a
503 response whose body decodes as JSON, `get_clan` returns the parsed
body and `get_warlog` returns its `items` field — both succeed instead
of failing as the claim requires for every non-2xx status. -/
theorem fetch_ignores_http_status_counterexample :
    (∃ r, status503_net "key" "#2CCCP" = .ok r ∧ r.status = 503) ∧
    get_clan status503_net "key" "#2CCCP" =
      .ok (JsonVal.obj [("items", JsonVal.arr [])]) ∧
    get_warlog status503_net "key" "#2CCCP" = .ok (JsonVal.arr []) :=
  ⟨⟨_, rfl, rfl⟩, rfl, rfl⟩

/-- C2 amended: for every API key and clan id, the fetches fail when the
network request fails (the `requests` exception) or the body fails to
decode as JSON (the `json.loads` exception), and `get_warlog`
additionally fails when the decoded envelope has no `items` field; the
HTTP status code is never examined, so any response with a decodable
body — whatever its status — is returned as data. Each call issues
exactly one request, so there are no retries. -/
theorem fetch_failure_semantics (net : String → String → Except Unit HttpResponse)
    (api_key clan_id : String) :
    (∀ e, net api_key clan_id = .error e →
      get_clan net api_key clan_id = .error .networkError ∧
      get_warlog net api_key clan_id = .error .networkError) ∧
    (∀ r, net api_key clan_id = .ok r → r.bodyJson = none →
      get_clan net api_key clan_id = .error .jsonDecodeError ∧
      get_warlog net api_key clan_id = .error .jsonDecodeError) ∧
    (∀ r v, net api_key clan_id = .ok r → r.bodyJson = some v →
      get_clan net api_key clan_id = .ok v) ∧
    (∀ r v, net api_key clan_id = .ok r → r.bodyJson = some v →
      v.lookup "items" = none →
      get_warlog net api_key clan_id = .error .keyError) ∧
    (∀ r v items, net api_key clan_id = .ok r → r.bodyJson = some v →
      v.lookup "items" = some items →
      get_warlog net api_key clan_id = .ok items) := by
  refine ⟨fun e he => ?_, fun r hr hb => ?_, fun r v hr hb => ?_,
    fun r v hr hb hl => ?_, fun r v items hr hb hl => ?_⟩
  · constructor <;> simp [get_clan, get_warlog, he]
  · constructor <;> simp [get_clan, get_warlog, hr, hb]
  · simp [get_clan, hr, hb]
  · simp [get_warlog, hr, hb, hl]
  · simp [get_warlog, hr, hb, hl]

theorem fetch_failure_semantics_witness :
    get_clan status503_net "key" "#2CCCP" =
      .ok (JsonVal.obj [("items", JsonVal.arr [])]) :=
  (fetch_failure_semantics status503_net "key" "#2CCCP").2.2.1 _ _ rfl rfl

/-- `true` when a run result is a success or a pre-publish exception. -/
def result_prepublish : Except BuildError Unit → Bool
  | .error e => e.isPrePublish
  | .ok _ => true

/-- `true` when a run result is a success or a publish-phase exception. -/
def result_publish_only : Except BuildError Unit → Bool
  | .error e => !e.isPrePublish
  | .ok _ => true

lemma staging_mkdtemp_fail (env : BuildEnv) (dp : Option String)
    (s : BuildState) (h : env.mkdtemp_ok = false) :
    build_dashboard_staging env dp s = (s, Except.error BuildError.mkdtempError) := by
  simp [build_dashboard_staging, h]

/-- No staging step touches the final output path. -/
lemma staging_output (env : BuildEnv) (dp : Option String) (s : BuildState) :
    (build_dashboard_staging env dp s).1.output = s.output := by
  simp only [build_dashboard_staging]
  repeat' split
  all_goals rfl

lemma staging_writes (env : BuildEnv) (dp : Option String) (s : BuildState)
    (h : s.writes.all PyObj.isStr = true) :
    (build_dashboard_staging env dp s).1.writes.all PyObj.isStr = true := by
  simp only [build_dashboard_staging]
  repeat' split
  all_goals simp [h, List.all_append, PyObj.isStr]

/-- Every exception a staging step can raise is a pre-publish one. -/
lemma staging_errors_prepublish (env : BuildEnv) (dp : Option String)
    (s : BuildState) :
    result_prepublish (build_dashboard_staging env dp s).2 = true := by
  simp only [build_dashboard_staging]
  repeat' split
  all_goals rfl

/-- Every exception the publish step can raise is a publish-phase one. -/
lemma publish_errors_postpublish (env : BuildEnv) (op : String) (s : BuildState) :
    result_publish_only (build_dashboard_publish env op s).2 = true := by
  simp only [build_dashboard_publish]
  repeat' split
  all_goals rfl

lemma publish_writes (env : BuildEnv) (op : String) (s : BuildState) :
    (build_dashboard_publish env op s).1.writes = s.writes := by
  simp only [build_dashboard_publish]
  repeat' split
  all_goals rfl

lemma build_try_mkdtemp_fail (env : BuildEnv) (dp : Option String) (op : String)
    (s : BuildState) (h : env.mkdtemp_ok = false) :
    build_dashboard_try env dp op s = (s, Except.error BuildError.mkdtempError) := by
  unfold build_dashboard_try
  rw [staging_mkdtemp_fail env dp s h]

lemma build_try_writes (env : BuildEnv) (dp : Option String) (op : String)
    (s : BuildState) (h : s.writes.all PyObj.isStr = true) :
    (build_dashboard_try env dp op s).1.writes.all PyObj.isStr = true := by
  unfold build_dashboard_try
  rcases hs : build_dashboard_staging env dp s with ⟨s2, r⟩
  have hw : s2.writes.all PyObj.isStr = true := by
    have h2 := staging_writes env dp s h
    rw [hs] at h2
    exact h2
  cases r with
  | error e => simpa using hw
  | ok u => simpa [publish_writes] using hw

/-- C1: the temporary working directory never survives a run — whether
the run succeeds or raises — and any run that ends with an exception
raised before the publish step (staging, asset copying, fetching and
logging, description resolution, assembly, rendering) leaves the final
output path exactly as it found it. -/
theorem build_dashboard_prepublish_semantics (env : BuildEnv) (dp : Option String)
    (op : String) (o0 : Option Nat) :
    ((build_dashboard env dp op o0).1.temp = false) ∧
    (∀ e, (build_dashboard env dp op o0).2 = Except.error e →
      e.isPrePublish = true →
      (build_dashboard env dp op o0).1.output = o0) := by
  constructor
  · by_cases h : env.mkdtemp_ok = true
    · simp [build_dashboard, h]
    · have hf := build_try_mkdtemp_fail env dp op
        { output := o0, temp := false, writes := [] } (by simpa using h)
      simp [build_dashboard, h, hf]
  · intro e he hpre
    by_cases h : env.mkdtemp_ok = true
    · simp only [build_dashboard, h, if_true] at he ⊢
      unfold build_dashboard_try at he ⊢
      rcases hs : build_dashboard_staging env dp
          { output := o0, temp := false, writes := [] } with ⟨s2, r⟩
      have hout : s2.output = o0 := by
        have h2 := staging_output env dp { output := o0, temp := false, writes := [] }
        rw [hs] at h2
        exact h2
      cases r with
      | error e2 => simpa using hout
      | ok u =>
        rw [hs] at he
        dsimp only at he
        have hp := publish_errors_postpublish env op s2
        rw [he] at hp
        simp only [result_publish_only, Bool.not_eq_true'] at hp
        rw [hp] at hpre
        cases hpre
    · have hf := build_try_mkdtemp_fail env dp op
        { output := o0, temp := false, writes := [] } (by simpa using h)
      simp [build_dashboard, h, hf]

/-- C10: `write_object_to_file` writes a string argument verbatim; any
non-string argument hits the unbound name `unicode` and raises
`NameError`, so the JSON-serialisation branch is unreachable; and every
argument `build_dashboard` ever passes to it (the two `json.dumps`
strings and the rendered HTML) is a string, so the error branch is never
taken during a run. -/
theorem write_object_to_file_spec :
    (∀ s, write_object_to_file (PyObj.str s) = Except.ok s) ∧
    (∀ j, write_object_to_file (PyObj.nonStr j) =
      Except.error PyError.nameError) ∧
    (∀ (env : BuildEnv) (dp : Option String) (op : String) (o0 : Option Nat),
      (build_dashboard env dp op o0).1.writes.all PyObj.isStr = true) := by
  refine ⟨fun s => rfl, fun j => rfl, fun env dp op o0 => ?_⟩
  have h := build_try_writes env dp op { output := o0, temp := false, writes := [] } rfl
  by_cases hm : env.mkdtemp_ok = true <;> simpa [build_dashboard, hm] using h

/-- A clan snapshot and oracle for the C1 witness: every external call
succeeds except copying the bundled static assets, which raises. -/
def static_copy_fails_env : BuildEnv :=
  { mkdtemp_ok := true, makedirs_ok := true, copy_static_ok := false,
    copy_logo_ok := true, copy_favicon_ok := true,
    fetch_clan := Except.ok { name := "Agrassar", tag := "#JY8YVV",
                              description := "Rules, etc", requiredTrophies := 3000,
                              memberList := [] },
    dumps_clan := fun _ => "clan json", write_clan_ok := true,
    fetch_warlog := Except.ok [], dumps_warlog := fun _ => "warlog json",
    write_warlog_ok := true, expanduser := id, read_file := fun _ => none,
    render := fun _ _ => Except.ok "html", write_index_ok := true,
    copystat_ok := true, rmtree_output_ok := true, copytree_output_ok := true,
    staged_content := 1, copytree_leftover := none }

theorem build_dashboard_prepublish_semantics_witness :
    (build_dashboard static_copy_fails_env none "/var/www" (some 7)).1.temp = false ∧
    (build_dashboard static_copy_fails_env none "/var/www" (some 7)).1.output = some 7 :=
  ⟨(build_dashboard_prepublish_semantics static_copy_fails_env none "/var/www"
      (some 7)).1,
   (build_dashboard_prepublish_semantics static_copy_fails_env none "/var/www"
      (some 7)).2 BuildError.copyStaticError rfl rfl⟩

end Crtools
